import Mathlib

/-!
Shallow embedding of the IRIS protocol Anchor program.

A Lean model of `src/anchor/programs/anchor/src/lib.rs`: the data model
(`UserAccount`, `InsuranceNFT`, `Claim`, `Governance`, …), the six public
instructions (`subscribe`, `update_risk_score`, `mint_insurance_nft`,
`trigger_protection`, `initiate_claim`, `vote_on_claim`) and the internal
helpers (`check_protection_triggers`, `process_payout`,
`return_nft_to_owner`, `SubscriptionPlan.get_plan`,
`Governance.is_authorized`).

Modelling conventions:
* Solana public keys are opaque identifiers, modelled as `Nat`.
* `u8`/`u64` fields are `Nat` and `i64` timestamps are `Int`; the only
  place the source does arithmetic where machine-width wrap-around is
  expressible (`now + duration as i64` when computing an expiry) is
  modelled faithfully with an explicit two's-complement cast and wrap.
* Fallible code returns `Except ProgErr α`. `ProgErr.code e` is an
  `ErrorCode` returned via `require!`/`Err(...)`; `ProgErr.panic` is a
  Rust panic (the source's `.unwrap()` on an empty `Vec`);
  `ProgErr.external` is a failing CPI into the SPL token program
  (`token::transfer` / `token::mint_to`), whose outcome is passed in as
  a boolean parameter since it is an external collaborator.
* The Solana runtime commits account writes only when the instruction
  returns `Ok`; a returned error aborts the whole transaction. Each
  instruction is therefore a pure function from the touched accounts (plus
  the clock and the CPI outcomes) to `Except ProgErr` of the new account
  states and the emitted events, and `commitUser` realises the
  commit-on-success rule.
* `emit!` is modelled by returning the list of emitted events.
-/

deriving instance DecidableEq for Except

namespace IrisAnchor

/-- A Solana public key, as an opaque identifier. -/
abbrev Pubkey := Nat

/-- Model of `RiskParams` from the source: a user's protection preferences. -/
structure RiskParams where
  risk_threshold : Nat
  watchlist : List Pubkey
  auto_swap : Bool
  auto_freeze : Bool
deriving Repr, DecidableEq

/-- Model of `Score`: a risk-score sample (value 0–255, oracle timestamp). -/
structure Score where
  value : Nat
  timestamp : Int
deriving Repr, DecidableEq

/-- Model of `UserAccount`: per-user profile. -/
structure UserAccount where
  wallet : Pubkey
  preferences : RiskParams
  active_sub : Bool
  subscription_expiry : Int
  score_history : List Score
deriving Repr, DecidableEq

/-- Model of `InsuranceNFT`: a coverage record. -/
structure InsuranceNFT where
  tier : Nat
  expiry : Int
  payout_cap : Nat
  token_mint : Pubkey
  owner : Pubkey
deriving Repr, DecidableEq

/-- Model of `ClaimStatus` of a claim. -/
inductive ClaimStatus where
  | Pending
  | Approved
  | Rejected
deriving Repr, DecidableEq

/-- Model of `ProtectionAction` kinds. -/
inductive ProtectionAction where
  | Swap
  | Freeze
  | Alert
  | Claim
deriving Repr, DecidableEq

/-- Model of `Claim`: a claim account. `approval_votes`/`rejection_votes` start at 0
(Anchor zero-initialises a freshly `init`-ed account). -/
structure Claim where
  claimant : Pubkey
  amount : Nat
  timestamp : Int
  status : ClaimStatus
  proof : List Nat
  insurance_nft : Pubkey
  approval_votes : Nat
  rejection_votes : Nat
deriving Repr, DecidableEq

/-- Model of `Governance` configuration. -/
structure Governance where
  authority : Pubkey
  quorum : Nat
  voting_duration : Int
deriving Repr, DecidableEq

/-- Model of `ActionLog`: the audit record written by `trigger_protection`. -/
structure ActionLog where
  timestamp : Int
  trigger_type : ProtectionAction
  token : Pubkey
  score : Nat
deriving Repr, DecidableEq

/-- Model of `ScoreMessage`: the message the oracle signs. -/
structure ScoreMessage where
  wallet : Pubkey
  score : Nat
  timestamp : Int
deriving Repr, DecidableEq

/-- Model of `SubscriptionPlan`: an entry of the fixed plan table. -/
structure SubscriptionPlan where
  id : Nat
  duration : Nat
  price : Nat
deriving Repr, DecidableEq

/-- The `ErrorCode` enum of the source. -/
inductive ErrorCode where
  | InsufficientPayment
  | NoActiveSubscription
  | SubscriptionExpired
  | InvalidAction
  | InsuranceExpired
  | ClaimExceedsCap
  | UnauthorizedGovernance
  | InvalidPlan
  | InvalidSignature
deriving Repr, DecidableEq

/-- How an instruction can fail: a returned `ErrorCode`, a Rust panic
(`unwrap` on `None`), or a failing external CPI (token transfer/mint). -/
inductive ProgErr where
  | code (e : ErrorCode)
  | panic
  | external
deriving Repr, DecidableEq

/-- The events the program `emit!`s. -/
inductive Event where
  | SubscriptionEvent (wallet : Pubkey) (plan_id : Nat) (expiry : Int) (timestamp : Int)
  | InsuranceNftMinted (wallet : Pubkey) (mint : Pubkey) (tier : Nat) (expiry : Int)
      (payout_cap : Nat)
  | ProtectionTriggered (wallet : Pubkey) (action : String) (token : Pubkey) (amount : Nat)
      (timestamp : Int)
  | RiskThresholdBreached (wallet : Pubkey) (score : Nat) (threshold : Nat) (timestamp : Int)
  | ClaimInitiated (wallet : Pubkey) (claim_id : Pubkey) (amount : Nat) (timestamp : Int)
  | ClaimVoted (claim_id : Pubkey) (voter : Pubkey) (approve : Bool) (timestamp : Int)
deriving Repr, DecidableEq

/-- Reinterpret a `u64` value as an `i64` (two's complement), as Rust's
`duration as i64`. -/
def u64AsI64 (d : Nat) : Int :=
  if d < 2 ^ 63 then (d : Int) else (d : Int) - 2 ^ 64

/-- Wrapping `i64` addition (release-mode Rust `+` on `i64`). -/
def i64Add (a b : Int) : Int :=
  (a + b + 2 ^ 63) % 2 ^ 64 - 2 ^ 63

/-- Model of `SubscriptionPlan::get_plan`: the fixed plan table. -/
def SubscriptionPlan.get_plan (plan_id : Nat) : Except ProgErr SubscriptionPlan :=
  match plan_id with
  | 1 => .ok { id := 1, duration := 30 * 24 * 60 * 60, price := 10 * 10 ^ 6 }
  | 2 => .ok { id := 2, duration := 90 * 24 * 60 * 60, price := 25 * 10 ^ 6 }
  | _ => .error (.code .InvalidPlan)

/-- Model of `Governance::is_authorized`: the voter must equal the configured
authority. -/
def Governance.is_authorized (g : Governance) (voter : Pubkey) : Bool :=
  voter == g.authority

/-- Model of `verify_iris_signature`: the source's verification is a stub that
always returns `Ok(())`. -/
def verify_iris_signature (_message : ScoreMessage) (_sig : List Nat) :
    Except ProgErr Unit :=
  .ok ()

/-- Model of `check_protection_triggers`: reads the latest score with
`.last().unwrap()` (a panic when the history is empty) and emits a
`RiskThresholdBreached` event when it reaches the user's threshold. -/
def check_protection_triggers (ua : UserAccount) (now : Int) :
    Except ProgErr (List Event) :=
  match ua.score_history.getLast? with
  | none => .error .panic
  | some s =>
    if s.value ≥ ua.preferences.risk_threshold then
      .ok [Event.RiskThresholdBreached ua.wallet s.value ua.preferences.risk_threshold now]
    else
      .ok []

/-- Model of `process_payout`: stub that returns `Ok(())` (the payout transfer is
not implemented in the source). -/
def process_payout (c : Claim) : Except ProgErr Claim :=
  .ok c

/-- Model of `return_nft_to_owner`: stub that returns `Ok(())`. -/
def return_nft_to_owner (c : Claim) : Except ProgErr Claim :=
  .ok c

/-- Model of `subscribe` instruction. `transfer_ok` is the outcome of the CPI
transferring `payment_amount` to the treasury. -/
def subscribe (ua : UserAccount) (plan_id : Nat) (duration : Nat)
    (payment_amount : Nat) (now : Int) (transfer_ok : Bool) :
    Except ProgErr (UserAccount × List Event) :=
  match SubscriptionPlan.get_plan plan_id with
  | .error e => .error e
  | .ok plan =>
    if payment_amount < plan.price then
      .error (.code .InsufficientPayment)
    else
      let ua1 := { ua with
        active_sub := true
        subscription_expiry := i64Add now (u64AsI64 duration) }
      if transfer_ok then
        .ok (ua1, [Event.SubscriptionEvent ua1.wallet plan_id ua1.subscription_expiry now])
      else
        .error .external

/-- Model of `update_risk_score` instruction: verify the oracle signature, append
the score to the history, then run `check_protection_triggers`. -/
def update_risk_score (ua : UserAccount) (score : Nat) (timestamp : Int)
    (sig : List Nat) (now : Int) :
    Except ProgErr (UserAccount × List Event) :=
  match verify_iris_signature { wallet := ua.wallet, score := score, timestamp := timestamp } sig with
  | .error e => .error e
  | .ok _ =>
    let ua1 := { ua with
      score_history := ua.score_history ++ [{ value := score, timestamp := timestamp }] }
    match check_protection_triggers ua1 now with
    | .error e => .error e
    | .ok evs => .ok (ua1, evs)

/-- Model of `mint_insurance_nft` instruction. `mint_ok` is the outcome of the
`token::mint_to` CPI; `mint_key` is the NFT mint's address. -/
def mint_insurance_nft (ua : UserAccount) (tier : Nat) (payout_cap : Nat)
    (duration : Nat) (mint_key : Pubkey) (now : Int) (mint_ok : Bool) :
    Except ProgErr (InsuranceNFT × List Event) :=
  if ua.active_sub then
    if now < ua.subscription_expiry then
      if mint_ok then
        let nft : InsuranceNFT := {
          tier := tier
          expiry := i64Add now (u64AsI64 duration)
          payout_cap := payout_cap
          token_mint := mint_key
          owner := ua.wallet }
        .ok (nft, [Event.InsuranceNftMinted ua.wallet mint_key tier nft.expiry payout_cap])
      else
        .error .external
    else
      .error (.code .SubscriptionExpired)
  else
    .error (.code .NoActiveSubscription)

/-- Label of a swap protection action, the source's string literal. -/
def swapLabel : String := "SWAP"

/-- Label of a freeze protection action, the source's string literal. -/
def freezeLabel : String := "FREEZE"

/-- Model of `trigger_protection` instruction: subscription checks, dispatch on the
action kind (`Swap`/`Freeze` emit, anything else is `InvalidAction`),
then write the `ActionLog` — reading the latest score with
`.last().unwrap()`, a panic when the history is empty. -/
def trigger_protection (ua : UserAccount) (action_type : ProtectionAction)
    (tok : Pubkey) (amount : Nat) (now : Int) :
    Except ProgErr (ActionLog × List Event) :=
  if ua.active_sub then
    if now < ua.subscription_expiry then
      let ev? : Except ProgErr Event :=
        match action_type with
        | .Swap => .ok (Event.ProtectionTriggered ua.wallet swapLabel tok amount now)
        | .Freeze => .ok (Event.ProtectionTriggered ua.wallet freezeLabel tok amount now)
        | _ => .error (.code .InvalidAction)
      match ev? with
      | .error e => .error e
      | .ok ev =>
        match ua.score_history.getLast? with
        | none => .error .panic
        | some s =>
          .ok ({ timestamp := now, trigger_type := action_type, token := tok,
                 score := s.value }, [ev])
    else
      .error (.code .SubscriptionExpired)
  else
    .error (.code .NoActiveSubscription)

/-- Result of `initiate_claim`: the created claim, whether the coverage
token was moved into the claim escrow, and the emitted events. -/
structure InitiateResult where
  claim : Claim
  escrowed : Bool
  events : List Event
deriving Repr, DecidableEq

/-- Model of `initiate_claim` instruction: expiry and cap checks, create the
`Pending` claim, then the escrow CPI (outcome `transfer_ok`). The caller
`user` is never compared against `insurance_nft.owner`. -/
def initiate_claim (insurance_nft : InsuranceNFT) (nft_key : Pubkey)
    (user : Pubkey) (claim_key : Pubkey) (claim_amount : Nat)
    (proof : List Nat) (now : Int) (transfer_ok : Bool) :
    Except ProgErr InitiateResult :=
  if now < insurance_nft.expiry then
    if claim_amount ≤ insurance_nft.payout_cap then
      let c : Claim := {
        claimant := user
        amount := claim_amount
        timestamp := now
        status := .Pending
        proof := proof
        insurance_nft := nft_key
        approval_votes := 0
        rejection_votes := 0 }
      if transfer_ok then
        .ok { claim := c, escrowed := true,
              events := [Event.ClaimInitiated user claim_key claim_amount now] }
      else
        .error .external
    else
      .error (.code .ClaimExceedsCap)
  else
    .error (.code .InsuranceExpired)

/-- Result of `vote_on_claim`: the updated claim, how many times
`process_payout` and `return_nft_to_owner` were invoked during the call,
and the emitted events. -/
structure VoteResult where
  claim : Claim
  payout_count : Nat
  nft_return_count : Nat
  events : List Event
deriving Repr, DecidableEq

/-- Model of `vote_on_claim` instruction: authority check, increment the chosen
counter, then the quorum checks (approval first), then `emit!`. The
source never inspects `claim.status` before counting the vote. -/
def vote_on_claim (claim : Claim) (g : Governance) (voter : Pubkey)
    (claim_id : Pubkey) (approve : Bool) (now : Int) :
    Except ProgErr VoteResult :=
  if g.is_authorized voter then
    let c1 :=
      if approve then { claim with approval_votes := claim.approval_votes + 1 }
      else { claim with rejection_votes := claim.rejection_votes + 1 }
    if c1.approval_votes ≥ g.quorum then
      match process_payout { c1 with status := .Approved } with
      | .error e => .error e
      | .ok c2 =>
        .ok { claim := c2, payout_count := 1, nft_return_count := 0,
              events := [Event.ClaimVoted claim_id voter approve now] }
    else if c1.rejection_votes ≥ g.quorum then
      match return_nft_to_owner { c1 with status := .Rejected } with
      | .error e => .error e
      | .ok c2 =>
        .ok { claim := c2, payout_count := 0, nft_return_count := 1,
              events := [Event.ClaimVoted claim_id voter approve now] }
    else
      .ok { claim := c1, payout_count := 0, nft_return_count := 0,
            events := [Event.ClaimVoted claim_id voter approve now] }
  else
    .error (.code .UnauthorizedGovernance)

/-- Solana's commit-on-success rule for the user account: writes persist
only when the instruction returns `Ok`; an error aborts the transaction
and the account keeps its pre-call state. -/
def commitUser (ua : UserAccount) (r : Except ProgErr (UserAccount × List Event)) :
    UserAccount :=
  match r with
  | .ok (ua1, _) => ua1
  | .error _ => ua

/-- Number of `RiskThresholdBreached` events in an event list. -/
def countBreach : List Event → Nat
  | [] => 0
  | Event.RiskThresholdBreached _ _ _ _ :: rest => 1 + countBreach rest
  | _ :: rest => countBreach rest

/-- An already-Approved claim whose approval count has reached the quorum
of `c1Gov`: a terminal claim for exercising `vote_on_claim`. -/
def c1Claim : Claim :=
  { claimant := 1, amount := 5, timestamp := 0, status := .Approved, proof := [],
    insurance_nft := 2, approval_votes := 1, rejection_votes := 0 }

/-- A governance configuration with authority 7 and quorum 1. -/
def c1Gov : Governance :=
  { authority := 7, quorum := 1, voting_duration := 100 }

/-- A ten-entry score history (the capacity the source's space constant
assumes). -/
def c3History : List Score :=
  (List.range 10).map (fun i => { value := i, timestamp := (i : Int) })

/-- A user profile whose score history is already at the ten-entry
capacity. -/
def c3User : UserAccount :=
  { wallet := 1,
    preferences := { risk_threshold := 200, watchlist := [], auto_swap := false,
                     auto_freeze := false },
    active_sub := true, subscription_expiry := 1000, score_history := c3History }

/-- An actively subscribed, unexpired user profile with an empty score
history. -/
def c4User : UserAccount :=
  { wallet := 1,
    preferences := { risk_threshold := 50, watchlist := [], auto_swap := false,
                     auto_freeze := false },
    active_sub := true, subscription_expiry := 100, score_history := [] }

/-- An insurance NFT that is already expired (at `now = 0`) and has payout
cap 5. -/
def c6Nft : InsuranceNFT :=
  { tier := 1, expiry := 0, payout_cap := 5, token_mint := 3, owner := 4 }

/-- Claim C1: the spec requires that a vote on a claim already in a
terminal state (Approved or Rejected) fail without incrementing either
counter, without changing the status, and without invoking payout again.
The code has no such guard: on `c1Claim` (already `Approved`, approval
count already at the quorum of 1), a further authorized approving vote
succeeds, increments `approval_votes` from 1 to 2, and invokes
`process_payout` again (`payout_count = 1` in this second call). -/
theorem vote_on_claim_terminal_revote :
    vote_on_claim c1Claim c1Gov 7 3 true 0 =
      .ok { claim := { claimant := 1, amount := 5, timestamp := 0, status := .Approved,
                       proof := [], insurance_nft := 2, approval_votes := 2,
                       rejection_votes := 0 },
            payout_count := 1, nft_return_count := 0,
            events := [Event.ClaimVoted 3 7 true 0] } := by
  decide

/-- Claim C3: the spec says the score history is capped at 10 entries with
FIFO eviction of the oldest. The code's `update_risk_score` pushes
unconditionally: on a profile whose history already holds 10 scores, a
further successful update yields a history of length 11 whose head is
still the oldest entry (nothing is evicted), contradicting the bound the
source's own space constant (`Score::LEN * 10`) assumes. -/
theorem update_risk_score_overflows_capacity :
    (update_risk_score c3User 50 10 [] 10).toOption.map
        (fun p => p.1.score_history.length) = some 11 ∧
    (update_risk_score c3User 50 10 [] 10).toOption.map
        (fun p => p.1.score_history.head?) = some (some { value := 0, timestamp := 0 }) := by
  decide

/-- Claim C4 counterexample: the claim says that on an empty score history
`trigger_protection` returns an error rather than crashing. On `c4User`
(active, unexpired, empty history) with the valid action `Swap`, the code
reaches `score_history.last().unwrap()` and panics — modelled as
`ProgErr.panic`, which is not a returned `ErrorCode`. -/
theorem trigger_protection_empty_history_panics :
    trigger_protection c4User .Swap 2 5 0 = .error .panic ∧
    ¬ ∃ e : ErrorCode, trigger_protection c4User .Swap 2 5 0 = .error (.code e) := by
  constructor
  · decide
  · rintro ⟨e, h⟩
    rw [show trigger_protection c4User .Swap 2 5 0 = .error .panic from by decide] at h
    simp at h

/-- Claim C6 counterexample: the claim says `claim_amount > payout_cap`
always fails with `ClaimExceedsCap`. The code checks the expiry first: on
the expired `c6Nft` with `claim_amount = 6 > payout_cap = 5`, the call
fails with `InsuranceExpired`, not `ClaimExceedsCap`. -/
theorem initiate_claim_expired_overcap :
    initiate_claim c6Nft 9 4 10 6 [] 0 true = .error (.code .InsuranceExpired) ∧
    initiate_claim c6Nft 9 4 10 6 [] 0 true ≠ .error (.code .ClaimExceedsCap) := by
  decide

/-- A Pending claim with two approving votes already counted. -/
def c2Claim : Claim :=
  { claimant := 1, amount := 5, timestamp := 0, status := .Pending, proof := [],
    insurance_nft := 2, approval_votes := 2, rejection_votes := 0 }

/-- A governance configuration with authority 7 and quorum 3. -/
def c2Gov : Governance :=
  { authority := 7, quorum := 3, voting_duration := 100 }

/-- Claim C2: on a Pending claim, a vote by the governance authority
increments the chosen counter and resolves by the quorum rule (approval
checked first): reaching the approval quorum sets the status to Approved
and invokes payout exactly once; otherwise reaching the rejection quorum
sets the status to Rejected and returns the escrowed token once; otherwise
the claim stays Pending with no payout or return; every successful call
emits exactly one ClaimVoted event. A voter other than the authority
fails with UnauthorizedGovernance. -/
theorem vote_on_claim_pending_behaviour (c : Claim) (g : Governance)
    (voter claim_id : Pubkey) (approve : Bool) (now : Int)
    (hp : c.status = .Pending) :
    (voter ≠ g.authority →
      vote_on_claim c g voter claim_id approve now =
        .error (.code .UnauthorizedGovernance)) ∧
    (voter = g.authority → ∃ r : VoteResult,
      vote_on_claim c g voter claim_id approve now = .ok r ∧
      r.claim.approval_votes = c.approval_votes + (if approve then 1 else 0) ∧
      r.claim.rejection_votes = c.rejection_votes + (if approve then 0 else 1) ∧
      (g.quorum ≤ c.approval_votes + (if approve then 1 else 0) →
        r.claim.status = .Approved ∧ r.payout_count = 1) ∧
      (c.approval_votes + (if approve then 1 else 0) < g.quorum →
        g.quorum ≤ c.rejection_votes + (if approve then 0 else 1) →
        r.claim.status = .Rejected ∧ r.nft_return_count = 1) ∧
      (c.approval_votes + (if approve then 1 else 0) < g.quorum →
        c.rejection_votes + (if approve then 0 else 1) < g.quorum →
        r.claim.status = .Pending ∧ r.payout_count = 0 ∧ r.nft_return_count = 0) ∧
      r.events = [Event.ClaimVoted claim_id voter approve now]) := by
  constructor
  · intro hne
    have hb : g.is_authorized voter = false := by
      simp [Governance.is_authorized, hne]
    simp [vote_on_claim, hb]
  · intro heq
    have hb : g.is_authorized voter = true := by
      simp [Governance.is_authorized, heq]
    cases approve with
    | true =>
      by_cases hq : g.quorum ≤ c.approval_votes + 1
      · refine ⟨⟨⟨c.claimant, c.amount, c.timestamp, .Approved, c.proof, c.insurance_nft,
            c.approval_votes + 1, c.rejection_votes⟩, 1, 0,
            [Event.ClaimVoted claim_id voter true now]⟩,
          by simp [vote_on_claim, hb, hq, process_payout], ?_⟩
        refine ⟨by simp, by simp, fun _ => ⟨rfl, rfl⟩, ?_, ?_, rfl⟩
        · intro h1 _; simp at h1; exact absurd hq (by omega)
        · intro h1 _; simp at h1; exact absurd hq (by omega)
      · by_cases hr : g.quorum ≤ c.rejection_votes
        · refine ⟨⟨⟨c.claimant, c.amount, c.timestamp, .Rejected, c.proof, c.insurance_nft,
              c.approval_votes + 1, c.rejection_votes⟩, 0, 1,
              [Event.ClaimVoted claim_id voter true now]⟩,
            by simp [vote_on_claim, hb, hq, hr, return_nft_to_owner], ?_⟩
          refine ⟨by simp, by simp, ?_, fun _ _ => ⟨rfl, rfl⟩, ?_, rfl⟩
          · intro h1; simp at h1; exact absurd h1 hq
          · intro _ h2; simp at h2; exact absurd hr (by omega)
        · refine ⟨⟨⟨c.claimant, c.amount, c.timestamp, c.status, c.proof, c.insurance_nft,
              c.approval_votes + 1, c.rejection_votes⟩, 0, 0,
              [Event.ClaimVoted claim_id voter true now]⟩,
            by simp [vote_on_claim, hb, hq, hr], ?_⟩
          refine ⟨by simp, by simp, ?_, ?_, fun _ _ => ⟨by simp [hp], rfl, rfl⟩, rfl⟩
          · intro h1; simp at h1; exact absurd h1 hq
          · intro _ h2; simp at h2; exact absurd h2 hr
    | false =>
      by_cases hq : g.quorum ≤ c.approval_votes
      · refine ⟨⟨⟨c.claimant, c.amount, c.timestamp, .Approved, c.proof, c.insurance_nft,
            c.approval_votes, c.rejection_votes + 1⟩, 1, 0,
            [Event.ClaimVoted claim_id voter false now]⟩,
          by simp [vote_on_claim, hb, hq, process_payout], ?_⟩
        refine ⟨by simp, by simp, fun _ => ⟨rfl, rfl⟩, ?_, ?_, rfl⟩
        · intro h1 _; simp at h1; exact absurd hq (by omega)
        · intro h1 _; simp at h1; exact absurd hq (by omega)
      · by_cases hr : g.quorum ≤ c.rejection_votes + 1
        · refine ⟨⟨⟨c.claimant, c.amount, c.timestamp, .Rejected, c.proof, c.insurance_nft,
              c.approval_votes, c.rejection_votes + 1⟩, 0, 1,
              [Event.ClaimVoted claim_id voter false now]⟩,
            by simp [vote_on_claim, hb, hq, hr, return_nft_to_owner], ?_⟩
          refine ⟨by simp, by simp, ?_, fun _ _ => ⟨rfl, rfl⟩, ?_, rfl⟩
          · intro h1; simp at h1; exact absurd h1 (by omega)
          · intro _ h2; simp at h2; exact absurd hr (by omega)
        · refine ⟨⟨⟨c.claimant, c.amount, c.timestamp, c.status, c.proof, c.insurance_nft,
              c.approval_votes, c.rejection_votes + 1⟩, 0, 0,
              [Event.ClaimVoted claim_id voter false now]⟩,
            by simp [vote_on_claim, hb, hq, hr], ?_⟩
          refine ⟨by simp, by simp, ?_, ?_, fun _ _ => ⟨by simp [hp], rfl, rfl⟩, rfl⟩
          · intro h1; simp at h1; exact absurd h1 (by omega)
          · intro _ h2; simp at h2; exact absurd h2 hr

/-- Claim C2 witness: on the concrete Pending claim `c2Claim` (quorum 3),
a vote by the non-authority key 9 fails with UnauthorizedGovernance. -/
theorem vote_on_claim_pending_behaviour_witness :
    c2Claim.status = .Pending ∧
    vote_on_claim c2Claim c2Gov 9 0 true 0 = .error (.code .UnauthorizedGovernance) :=
  ⟨rfl, (vote_on_claim_pending_behaviour c2Claim c2Gov 9 0 true 0 rfl).1 (by decide)⟩

/-- Claim C4 (amended): with an empty score history, `trigger_protection`
aborts with the `unwrap` panic — not a returned `ErrorCode` — even when
the subscription is active and unexpired and the action kind is valid
(`Swap` or `Freeze`); and whenever the call succeeds, the written
`ActionLog`'s score equals the most recent score in the history. -/
theorem trigger_protection_empty_or_logs_latest (ua : UserAccount)
    (act : ProtectionAction) (tok : Pubkey) (amount : Nat) (now : Int) :
    (ua.score_history = [] → ua.active_sub = true → now < ua.subscription_expiry →
      (act = .Swap ∨ act = .Freeze) →
      trigger_protection ua act tok amount now = .error .panic) ∧
    (∀ log evs, trigger_protection ua act tok amount now = .ok (log, evs) →
      ∃ s, ua.score_history.getLast? = some s ∧ log.score = s.value) := by
  constructor
  · intro hemp hact hlt hvalid
    rcases hvalid with rfl | rfl <;> simp [trigger_protection, hact, hlt, hemp]
  · intro log evs h
    cases hact : ua.active_sub with
    | false => simp [trigger_protection, hact] at h
    | true =>
      by_cases hlt : now < ua.subscription_expiry
      · cases hl : ua.score_history.getLast? with
        | none =>
          cases act <;> simp [trigger_protection, hact, hlt, hl] at h
        | some s =>
          refine ⟨s, rfl, ?_⟩
          cases act <;> simp [trigger_protection, hact, hlt, hl] at h <;>
            simp [← h.1]
      · simp [trigger_protection, hact, hlt] at h

/-- Claim C4 witness: on the concrete profile `c4User` (active,
unexpired, empty history) with the valid action kind `Swap`, the call
aborts with the panic. -/
theorem trigger_protection_empty_or_logs_latest_witness :
    c4User.score_history = [] ∧ c4User.active_sub = true ∧
    (0 : Int) < c4User.subscription_expiry ∧
    trigger_protection c4User .Swap 2 5 0 = .error .panic :=
  ⟨rfl, rfl, by decide,
    (trigger_protection_empty_or_logs_latest c4User .Swap 2 5 0).1 rfl rfl (by decide)
      (Or.inl rfl)⟩

/-- Claim C5: if the payment transfer inside `subscribe` fails, the whole
instruction fails, so under the runtime's commit-on-success rule
(`commitUser`) the profile's `active_sub` flag and `subscription_expiry`
are unchanged from their values before the call — for every profile and
all arguments. (In the model every state mutation of a public operation
is carried inside the `Except` success value, so any failure — a failing
precondition or a failing external transfer alike — leaves the committed
record untouched, which is the atomicity the claim states.) -/
theorem subscribe_failed_transfer_atomic (ua : UserAccount)
    (plan_id duration payment_amount : Nat) (now : Int) :
    (∃ e, subscribe ua plan_id duration payment_amount now false = .error e) ∧
    commitUser ua (subscribe ua plan_id duration payment_amount now false) = ua ∧
    (commitUser ua (subscribe ua plan_id duration payment_amount now false)).active_sub
      = ua.active_sub ∧
    (commitUser ua (subscribe ua plan_id duration payment_amount now false)).subscription_expiry
      = ua.subscription_expiry := by
  have h : ∃ e, subscribe ua plan_id duration payment_amount now false = .error e := by
    unfold subscribe
    cases hp : SubscriptionPlan.get_plan plan_id with
    | error e => exact ⟨e, rfl⟩
    | ok plan =>
      by_cases hpay : payment_amount < plan.price
      · exact ⟨.code .InsufficientPayment, by simp [hpay]⟩
      · exact ⟨.external, by simp [hpay]⟩
  obtain ⟨e, he⟩ := h
  refine ⟨⟨e, he⟩, ?_, ?_, ?_⟩ <;> simp [commitUser, he]

/-- Claim C6 (amended): `initiate_claim` checks the expiry first: with
`now >= coverage.expiry` it always fails with `InsuranceExpired` (even
when the amount also exceeds the cap); with an unexpired coverage and
`claim_amount > coverage.payout_cap` it always fails with
`ClaimExceedsCap`, and no claim is created in either case; when both
checks pass (and the escrow transfer succeeds) a Pending claim recording
claimant, amount, timestamp and proof is created and the coverage token
is moved into escrow. -/
theorem initiate_claim_check_order (nft : InsuranceNFT)
    (nft_key user claim_key : Pubkey) (claim_amount : Nat) (proof : List Nat)
    (now : Int) (transfer_ok : Bool) :
    (nft.expiry ≤ now →
      initiate_claim nft nft_key user claim_key claim_amount proof now transfer_ok
        = .error (.code .InsuranceExpired)) ∧
    (now < nft.expiry → nft.payout_cap < claim_amount →
      initiate_claim nft nft_key user claim_key claim_amount proof now transfer_ok
        = .error (.code .ClaimExceedsCap)) ∧
    (now < nft.expiry → claim_amount ≤ nft.payout_cap → transfer_ok = true →
      initiate_claim nft nft_key user claim_key claim_amount proof now transfer_ok
        = .ok { claim := { claimant := user, amount := claim_amount, timestamp := now,
                           status := .Pending, proof := proof, insurance_nft := nft_key,
                           approval_votes := 0, rejection_votes := 0 },
                escrowed := true,
                events := [Event.ClaimInitiated user claim_key claim_amount now] }) := by
  refine ⟨?_, ?_, ?_⟩
  · intro hle
    simp [initiate_claim, not_lt.mpr hle]
  · intro hlt hcap
    simp [initiate_claim, hlt, not_le.mpr hcap]
  · rintro hlt hcap rfl
    simp [initiate_claim, hlt, hcap]

/-- Claim C6 witness: on an unexpired coverage with cap 5, a claim of 6
fails with `ClaimExceedsCap`. -/
theorem initiate_claim_check_order_witness :
    (0 : Int) < 100 ∧ (5 : Nat) < 6 ∧
    initiate_claim { tier := 1, expiry := 100, payout_cap := 5, token_mint := 3, owner := 4 }
        9 4 10 6 [] 0 true = .error (.code .ClaimExceedsCap) :=
  ⟨by decide, by decide,
    (initiate_claim_check_order
        { tier := 1, expiry := 100, payout_cap := 5, token_mint := 3, owner := 4 }
        9 4 10 6 [] 0 true).2.1 (by decide) (by decide)⟩

/-- Claim C7: `mint_insurance_nft` and `trigger_protection` both fail
deterministically — for every profile and all other inputs — with
`NoActiveSubscription` when the subscription flag is off, and with
`SubscriptionExpired` when the flag is on but `now >= subscription_expiry`
(the flag is checked first, as in the source). -/
theorem subscription_gating (ua : UserAccount) (tier payout_cap duration : Nat)
    (mint_key : Pubkey) (mint_ok : Bool) (act : ProtectionAction)
    (tok : Pubkey) (amount : Nat) (now : Int) :
    (ua.active_sub = false →
      mint_insurance_nft ua tier payout_cap duration mint_key now mint_ok
        = .error (.code .NoActiveSubscription) ∧
      trigger_protection ua act tok amount now
        = .error (.code .NoActiveSubscription)) ∧
    (ua.active_sub = true → ua.subscription_expiry ≤ now →
      mint_insurance_nft ua tier payout_cap duration mint_key now mint_ok
        = .error (.code .SubscriptionExpired) ∧
      trigger_protection ua act tok amount now
        = .error (.code .SubscriptionExpired)) := by
  constructor
  · intro h
    constructor <;> simp [mint_insurance_nft, trigger_protection, h]
  · intro h hle
    constructor <;> simp [mint_insurance_nft, trigger_protection, h, not_lt.mpr hle]

/-- An unsubscribed sample profile. -/
def inactiveUser : UserAccount :=
  { wallet := 1,
    preferences := { risk_threshold := 50, watchlist := [], auto_swap := false,
                     auto_freeze := false },
    active_sub := false, subscription_expiry := 100, score_history := [] }

/-- Claim C7 witness: on the concrete unsubscribed profile, both
operations fail with `NoActiveSubscription`. -/
theorem subscription_gating_witness :
    inactiveUser.active_sub = false ∧
    mint_insurance_nft inactiveUser 1 100 10 2 0 true
      = .error (.code .NoActiveSubscription) ∧
    trigger_protection inactiveUser .Swap 2 5 0
      = .error (.code .NoActiveSubscription) :=
  ⟨rfl, (subscription_gating inactiveUser 1 100 10 2 true .Swap 2 5 0).1 rfl⟩

/-- Helper: any plan id other than 1 and 2 has no plan-table entry. -/
theorem get_plan_invalid (plan_id : Nat) (h1 : plan_id ≠ 1) (h2 : plan_id ≠ 2) :
    SubscriptionPlan.get_plan plan_id = .error (.code .InvalidPlan) := by
  unfold SubscriptionPlan.get_plan
  match plan_id, h1, h2 with
  | 0, _, _ => rfl
  | 1, h1, _ => exact absurd rfl h1
  | 2, _, h2 => exact absurd rfl h2
  | (n + 3), _, _ => rfl

/-- Claim C8: `subscribe` with a plan id other than 1 or 2 always fails
with `InvalidPlan`; with a payment below the selected plan's price it
always fails with `InsufficientPayment`; plan 1 costs 10,000,000 with a
nominal duration of 2,592,000 seconds, plan 2 costs 25,000,000 with a
nominal duration of 7,776,000 seconds. -/
theorem subscribe_plan_rules (ua : UserAccount)
    (plan_id duration payment_amount : Nat) (now : Int) (transfer_ok : Bool) :
    (plan_id ≠ 1 → plan_id ≠ 2 →
      subscribe ua plan_id duration payment_amount now transfer_ok
        = .error (.code .InvalidPlan)) ∧
    (plan_id = 1 → payment_amount < 10000000 →
      subscribe ua plan_id duration payment_amount now transfer_ok
        = .error (.code .InsufficientPayment)) ∧
    (plan_id = 2 → payment_amount < 25000000 →
      subscribe ua plan_id duration payment_amount now transfer_ok
        = .error (.code .InsufficientPayment)) ∧
    SubscriptionPlan.get_plan 1 = .ok { id := 1, duration := 2592000, price := 10000000 } ∧
    SubscriptionPlan.get_plan 2 = .ok { id := 2, duration := 7776000, price := 25000000 } := by
  refine ⟨?_, ?_, ?_, by decide, by decide⟩
  · intro h1 h2
    unfold subscribe
    rw [get_plan_invalid plan_id h1 h2]
  · rintro rfl hpay
    simp [subscribe, SubscriptionPlan.get_plan, hpay]
  · rintro rfl hpay
    simp [subscribe, SubscriptionPlan.get_plan, hpay]

/-- Claim C8 witness: plan id 3 is rejected with `InvalidPlan`, and plan 1
with a 9,999,999 payment is rejected with `InsufficientPayment`. -/
theorem subscribe_plan_rules_witness :
    (3 : Nat) ≠ 1 ∧ (3 : Nat) ≠ 2 ∧
    subscribe inactiveUser 3 5 5 0 true = .error (.code .InvalidPlan) ∧
    subscribe inactiveUser 1 5 9999999 0 true = .error (.code .InsufficientPayment) :=
  ⟨by decide, by decide,
    (subscribe_plan_rules inactiveUser 3 5 5 0 true).1 (by decide) (by decide),
    (subscribe_plan_rules inactiveUser 1 5 9999999 0 true).2.1 rfl (by decide)⟩

/-- Claim C9: `update_risk_score` always succeeds (the signature check is
a stub), appends exactly the new score to the history, changes nothing
else in the profile, and emits exactly one `RiskThresholdBreached` event
if and only if the new score reaches the profile's threshold — none when
it is strictly below. -/
theorem update_risk_score_breach_event (ua : UserAccount) (score : Nat)
    (ts : Int) (sig : List Nat) (now : Int) :
    ∃ ua1 evs, update_risk_score ua score ts sig now = .ok (ua1, evs) ∧
      ua1.score_history = ua.score_history ++ [{ value := score, timestamp := ts }] ∧
      ua1.wallet = ua.wallet ∧ ua1.preferences = ua.preferences ∧
      ua1.active_sub = ua.active_sub ∧
      ua1.subscription_expiry = ua.subscription_expiry ∧
      countBreach evs = (if ua.preferences.risk_threshold ≤ score then 1 else 0) ∧
      (score < ua.preferences.risk_threshold → evs = []) := by
  by_cases hth : ua.preferences.risk_threshold ≤ score
  · refine ⟨{ ua with score_history := ua.score_history ++ [{ value := score, timestamp := ts }] },
      [Event.RiskThresholdBreached ua.wallet score ua.preferences.risk_threshold now],
      ?_, rfl, rfl, rfl, rfl, rfl, by simp [countBreach, hth], fun hlt => absurd hth (by omega)⟩
    simp [update_risk_score, verify_iris_signature, check_protection_triggers, hth]
  · refine ⟨{ ua with score_history := ua.score_history ++ [{ value := score, timestamp := ts }] },
      [], ?_, rfl, rfl, rfl, rfl, rfl, by simp [countBreach, hth], fun _ => rfl⟩
    simp [update_risk_score, verify_iris_signature, check_protection_triggers, hth]

/-- An unexpired coverage record owned by key 4, with payout cap 50. -/
def c10Nft : InsuranceNFT :=
  { tier := 1, expiry := 100, payout_cap := 50, token_mint := 3, owner := 4 }

/-- Claim C10: `initiate_claim` never compares the caller with the stored
`insurance_nft.owner`: for every caller, whenever the expiry and cap
checks pass (and the escrow transfer succeeds), the call succeeds and the
created claim's claimant is the caller's key — the owner field plays no
role. -/
theorem initiate_claim_ignores_owner (nft : InsuranceNFT)
    (nft_key user claim_key : Pubkey) (claim_amount : Nat) (proof : List Nat)
    (now : Int) (hexp : now < nft.expiry) (hcap : claim_amount ≤ nft.payout_cap) :
    initiate_claim nft nft_key user claim_key claim_amount proof now true
      = .ok { claim := { claimant := user, amount := claim_amount, timestamp := now,
                         status := .Pending, proof := proof, insurance_nft := nft_key,
                         approval_votes := 0, rejection_votes := 0 },
              escrowed := true,
              events := [Event.ClaimInitiated user claim_key claim_amount now] } := by
  simp [initiate_claim, hexp, hcap]

/-- Claim C10 witness: caller 9 differs from the stored owner 4 of
`c10Nft`, yet the claim is created with claimant 9. -/
theorem initiate_claim_ignores_owner_witness :
    (9 : Pubkey) ≠ c10Nft.owner ∧ (0 : Int) < c10Nft.expiry ∧
    (7 : Nat) ≤ c10Nft.payout_cap ∧
    initiate_claim c10Nft 8 9 10 7 [] 0 true
      = .ok { claim := { claimant := 9, amount := 7, timestamp := 0,
                         status := .Pending, proof := [], insurance_nft := 8,
                         approval_votes := 0, rejection_votes := 0 },
              escrowed := true, events := [Event.ClaimInitiated 9 10 7 0] } :=
  ⟨by decide, by decide, by decide,
    initiate_claim_ignores_owner c10Nft 8 9 10 7 [] 0 (by decide) (by decide)⟩

end IrisAnchor
